import Mathlib

/-!
# Spring engine: feature visibility, mod-rule validation, feature economy, deferred occupancy

Shallow embedding of `rts/Sim/Features/Feature.h` (`CFeature::IsInLosForAllyTeam`,
`CFeature::GetBlockingMapID`) and of `rts/Sim/Misc/ModInfo.cpp` (`CModInfo::Init`),
together with models, written from the specification, of the `CFeature`
members whose bodies live in `Feature.cpp` (`AddBuildPower`, `QueBlock`,
`QueUnBlock`, `ExecuteDelayOps`).
-/

namespace Spring

/-! ## `CModInfo` : feature-visibility constants -/

/-- Modelled from the spec: the enumerators of `CModInfo` are declared in
`ModInfo.h`; the values follow the mode order NONE, GAIA_ONLY, GAIA_ALLIED,
ALL and the range `0..3` printed by the validation message of
`CModInfo::Init`. -/
def FEATURELOS_NONE : Int := 0

/-- Modelled from the spec: second enumerator of the visibility mode
(`ModInfo.h`). -/
def FEATURELOS_GAIAONLY : Int := 1

/-- Modelled from the spec: third enumerator of the visibility mode
(`ModInfo.h`). -/
def FEATURELOS_GAIAALLIED : Int := 2

/-- Modelled from the spec: last enumerator of the visibility mode
(`ModInfo.h`). -/
def FEATURELOS_ALL : Int := 3

/-! ## `CFeature::IsInLosForAllyTeam` and `CFeature::GetBlockingMapID` -/

/-- The line-of-sight service `loshandler`; only its query
`InLos(pos, allyteam)` is used.  `P` is the position type (`float3`), which
the feature code only passes through. -/
structure CLosHandler (P : Type) where
  InLos : P → Int → Bool

/-- The members of `CFeature` (and of its base `CSolidObject`) read by the
inline functions of `Feature.h`. -/
structure CFeature (P : Type) where
  id : Int
  pos : P
  allyteam : Int
  alwaysVisible : Bool

/-- Everything `IsInLosForAllyTeam` can reach: the global `modInfo` (its
`featureVisibility` member), the global `loshandler` and the feature
`this`. -/
structure SimState (P : Type) where
  featureVisibility : Int
  loshandler : CLosHandler P
  self : CFeature P

/-- `bool CFeature::IsInLosForAllyTeam(int allyteam) const`, as a state
transformer over everything the function can reach.  The `switch` falls to
`default` (shared with `FEATURELOS_NONE`) for every unlisted value. -/
def CFeature.IsInLosForAllyTeam {P : Type} (allyteam : Int) : StateM (SimState P) Bool := do
  let s ← get
  if s.self.alwaysVisible then
    return true
  if s.featureVisibility = FEATURELOS_NONE then
    return s.loshandler.InLos s.self.pos allyteam
  else if s.featureVisibility = FEATURELOS_GAIAONLY then
    return (s.self.allyteam == -1 || s.loshandler.InLos s.self.pos allyteam)
  else if s.featureVisibility = FEATURELOS_GAIAALLIED then
    return (s.self.allyteam == -1 || s.self.allyteam == allyteam
      || s.loshandler.InLos s.self.pos allyteam)
  else if s.featureVisibility = FEATURELOS_ALL then
    return true
  else
    -- default:
    return s.loshandler.InLos s.self.pos allyteam

/-- The boolean returned by `IsInLosForAllyTeam` in state `s`. -/
def isVisible {P : Type} (s : SimState P) (allyteam : Int) : Bool :=
  ((CFeature.IsInLosForAllyTeam allyteam).run s).1

/-- The decision of `IsInLosForAllyTeam` written as a function of the five
values it reads. -/
def visibilityRule (alwaysVisible : Bool) (featureVisibility featureAllyteam allyteam : Int)
    (inLos : Bool) : Bool :=
  if alwaysVisible then true
  else if featureVisibility = 1 then (featureAllyteam == -1 || inLos)
  else if featureVisibility = 2 then (featureAllyteam == -1 || featureAllyteam == allyteam || inLos)
  else if featureVisibility = 3 then true
  else inLos

/-- The value of a 32-bit `int` holding the mathematical integer `x`:
two's-complement wrap-around into `[-2^31, 2^31)`. -/
def wrapInt32 (x : Int) : Int :=
  (x + 2147483648) % 4294967296 - 2147483648

/-- `int CFeature::GetBlockingMapID() const { return id + (10 * uh->MaxUnits()); }`
with the product and the sum computed in 32 bits; `maxUnits` is the value of
`uh->MaxUnits()`. -/
def CFeature.GetBlockingMapID {P : Type} (self : CFeature P) (maxUnits : Int) : Int :=
  wrapInt32 (self.id + wrapInt32 (10 * maxUnits))

/-! ## `CModInfo::Init` -/

/-- Modelled from the spec: a value stored in a Lua table of
`gamedata/modrules.lua` (`Lua/LuaParser.h` is not part of the sources at
hand).  A number is kept as the `int` that `GetInt` delivers for it. -/
inductive LuaValue where
  | number (n : Int)
  | boolean (b : Bool)
  | table (entries : List (String × LuaValue))

/-- Modelled from the spec: a Lua table as the list of its key/value pairs
(`Lua/LuaParser.h`). -/
abbrev LuaTable := List (String × LuaValue)

/-- Modelled from the spec: `LuaTable::GetInt(key, def)` yields the number
stored under `key`, or `def` when the key is absent or holds no number. -/
def LuaTable.GetInt (t : LuaTable) (key : String) (dflt : Int) : Int :=
  match t.lookup key with
  | some (LuaValue.number n) => n
  | _ => dflt

/-- Modelled from the spec: `LuaTable::GetBool(key, def)` yields the boolean
stored under `key`, or `def` when the key is absent or holds no boolean. -/
def LuaTable.GetBool (t : LuaTable) (key : String) (dflt : Bool) : Bool :=
  match t.lookup key with
  | some (LuaValue.boolean b) => b
  | _ => dflt

/-- Modelled from the spec: `LuaTable::SubTable(key)` yields the table stored
under `key`, or an empty table (every lookup answers its default). -/
def LuaTable.SubTable (t : LuaTable) (key : String) : LuaTable :=
  match t.lookup key with
  | some (LuaValue.table entries) => entries
  | _ => []

/-- The exception type thrown by `CModInfo::Init` (`System/Exceptions.h`),
with the text handed to its constructor. -/
inductive Exception where
  | content_error (what : String)
  deriving DecidableEq, Repr

/-- What `CModInfo::Init` obtains from its collaborators: the archive
scanner's answers, the parsed root table of `gamedata/modrules.lua`, the
enumerators of the path-finder and Lua-threading headers (not among the
sources; `PFS_NUM_TYPES` counts the path-finder types and is positive) and
whether the game name contains "Balanced Annihilation". -/
structure InitEnv where
  humanName : String
  shortName : String
  version : String
  mutator : String
  description : String
  root : LuaTable
  PFS_TYPE_DEFAULT : Int
  PFS_TYPE_QTPFS : Int
  PFS_NUM_TYPES : Int
  PFS_NUM_TYPES_pos : 0 < PFS_NUM_TYPES
  MT_LUA_SINGLE_BATCH : Int
  modNameHasBalancedAnnihilation : Bool

/-- The integer, boolean and string members of `CModInfo` assigned by
`Init`.  The `float` members (cost factors, `losMul`, `airLosMul`, the two
construction-decay numbers) are plain assignments without any branch and are
not carried. -/
structure CModInfo where
  filename : String
  humanName : String
  shortName : String
  version : String
  mutator : String
  description : String
  pathFinderSystem : Int
  luaThreadingModel : Int
  allowAircraftToLeaveMap : Bool
  allowAircraftToHitGround : Bool
  allowPushingEnemyUnits : Bool
  allowCrushingAlliedUnits : Bool
  allowUnitCollisionDamage : Bool
  allowUnitCollisionOverlap : Bool
  allowGroundUnitGravity : Bool
  allowHoverUnitStrafing : Bool
  useClassicGroundMoveType : Bool
  constructionDecay : Bool
  multiReclaim : Int
  reclaimMethod : Int
  reclaimUnitMethod : Int
  reclaimAllowEnemies : Bool
  reclaimAllowAllies : Bool
  paralyzeOnMaxHealth : Bool
  fireAtKilled : Bool
  fireAtCrashing : Bool
  transportAir : Int
  transportShip : Int
  transportHover : Int
  transportGround : Int
  targetableTransportedUnits : Int
  flankingBonusModeDefault : Int
  featureVisibility : Int
  requireSonarUnderWater : Bool
  losMipLevel : Int
  airMipLevel : Int

/-- Text of the `content_error` thrown for an invalid `featureVisibility`. -/
def featureVisibilityError : String :=
  "invalid modinfo: featureVisibility, valid range is 0..3"

/-- Text of the `content_error` thrown for an invalid `losMipLevel` (two
adjacent literals in the source). -/
def losMipLevelError : String :=
  "Sensors\\Los\\LosMipLevel out of bounds. " ++
    "The minimum value is 0. The maximum value is 6."

/-- Text of the `content_error` thrown for an invalid `airMipLevel`. -/
def airMipLevelError : String :=
  "Sensors\\Los\\AirLosMipLevel out of bounds. " ++
    "The minimum value is 0. The maximum value is 30."

/-- `void CModInfo::Init(const char* modArchive)`: the members are computed
block by block in source order; a `throw` ends the call with the exception,
otherwise the call ends with all members assigned.  The calls into GML,
`CUnit::SetExp*` and the logger act on other modules and are not carried. -/
def CModInfo.Init (env : InitEnv) (modArchive : String) : Except Exception CModInfo := do
  let root := env.root
  -- system
  let system := root.SubTable "system"
  let pathFinderSystem :=
    Int.tmod (system.GetInt "pathFinderSystem" env.PFS_TYPE_DEFAULT) env.PFS_NUM_TYPES
  let luaThreadingModel := system.GetInt "luaThreadingModel" env.MT_LUA_SINGLE_BATCH
  -- movement
  let movementTbl := root.SubTable "movement"
  let allowAircraftToLeaveMap := movementTbl.GetBool "allowAirPlanesToLeaveMap" true
  let allowAircraftToHitGround := movementTbl.GetBool "allowAircraftToHitGround" true
  let allowPushingEnemyUnits := movementTbl.GetBool "allowPushingEnemyUnits" false
  let allowCrushingAlliedUnits := movementTbl.GetBool "allowCrushingAlliedUnits" false
  let allowUnitCollisionDamage := movementTbl.GetBool "allowUnitCollisionDamage" false
  let allowUnitCollisionOverlap := movementTbl.GetBool "allowUnitCollisionOverlap" true
  let allowGroundUnitGravity := movementTbl.GetBool "allowGroundUnitGravity" true
  let allowHoverUnitStrafing := movementTbl.GetBool "allowHoverUnitStrafing"
    (decide (pathFinderSystem = env.PFS_TYPE_QTPFS))
  let useClassicGroundMoveType := movementTbl.GetBool "useClassicGroundMoveType"
    env.modNameHasBalancedAnnihilation
  -- construction
  let constructionTbl := root.SubTable "construction"
  let constructionDecay := constructionTbl.GetBool "constructionDecay" true
  -- reclaim
  let reclaimTbl := root.SubTable "reclaim"
  let multiReclaim := reclaimTbl.GetInt "multiReclaim" 0
  let reclaimMethod := reclaimTbl.GetInt "reclaimMethod" 1
  let reclaimUnitMethod := reclaimTbl.GetInt "unitMethod" 1
  let reclaimAllowEnemies := reclaimTbl.GetBool "allowEnemies" true
  let reclaimAllowAllies := reclaimTbl.GetBool "allowAllies" true
  -- paralyze
  let paralyzeTbl := root.SubTable "paralyze"
  let paralyzeOnMaxHealth := paralyzeTbl.GetBool "paralyzeOnMaxHealth" true
  -- fire-at-dead-units
  let fireAtDeadTbl := root.SubTable "fireAtDead"
  let fireAtKilled := fireAtDeadTbl.GetBool "fireAtKilled" false
  let fireAtCrashing := fireAtDeadTbl.GetBool "fireAtCrashing" false
  -- transportability
  let transportTbl := root.SubTable "transportability"
  let transportAir := transportTbl.GetInt "transportAir" 0
  let transportShip := transportTbl.GetInt "transportShip" 0
  let transportHover := transportTbl.GetInt "transportHover" 0
  let transportGround := transportTbl.GetInt "transportGround" 1
  let targetableTransportedUnits := transportTbl.GetInt "targetableTransportedUnits" 0
  -- flanking bonus
  let flankingBonusTbl := root.SubTable "flankingBonus"
  let flankingBonusModeDefault := flankingBonusTbl.GetInt "defaultMode" 1
  -- feature visibility
  let featureLOS := root.SubTable "featureLOS"
  let featureVisibility := featureLOS.GetInt "featureVisibility" FEATURELOS_ALL
  if featureVisibility < FEATURELOS_NONE ∨ featureVisibility > FEATURELOS_ALL then
    throw (Exception.content_error featureVisibilityError)
  -- sensors, line-of-sight
  let sensors := root.SubTable "sensors"
  let los := sensors.SubTable "los"
  let requireSonarUnderWater := sensors.GetBool "requireSonarUnderWater" true
  let losMipLevel := los.GetInt "losMipLevel" 1
  let airMipLevel := los.GetInt "airMipLevel" 2
  if (losMipLevel < 0) ∨ (losMipLevel > 6) then
    throw (Exception.content_error losMipLevelError)
  if (airMipLevel < 0) ∨ (airMipLevel > 30) then
    throw (Exception.content_error airMipLevelError)
  return {
    filename := modArchive
    humanName := env.humanName
    shortName := env.shortName
    version := env.version
    mutator := env.mutator
    description := env.description
    pathFinderSystem, luaThreadingModel,
    allowAircraftToLeaveMap, allowAircraftToHitGround, allowPushingEnemyUnits,
    allowCrushingAlliedUnits, allowUnitCollisionDamage, allowUnitCollisionOverlap,
    allowGroundUnitGravity, allowHoverUnitStrafing, useClassicGroundMoveType,
    constructionDecay,
    multiReclaim, reclaimMethod, reclaimUnitMethod, reclaimAllowEnemies, reclaimAllowAllies,
    paralyzeOnMaxHealth, fireAtKilled, fireAtCrashing,
    transportAir, transportShip, transportHover, transportGround, targetableTransportedUnits,
    flankingBonusModeDefault, featureVisibility, requireSonarUnderWater,
    losMipLevel, airMipLevel }

/-- The value `Init` reads for `featureVisibility` from the root table. -/
def configuredFeatureVisibility (root : LuaTable) : Int :=
  (root.SubTable "featureLOS").GetInt "featureVisibility" FEATURELOS_ALL

/-- The value `Init` reads for `losMipLevel` from the root table. -/
def configuredLosMipLevel (root : LuaTable) : Int :=
  ((root.SubTable "sensors").SubTable "los").GetInt "losMipLevel" 1

/-- The value `Init` reads for `airMipLevel` from the root table. -/
def configuredAirMipLevel (root : LuaTable) : Int :=
  ((root.SubTable "sensors").SubTable "los").GetInt "airMipLevel" 2

/-! ## Deferred occupancy: `QueBlock`, `QueUnBlock`, `ExecuteDelayOps` -/

/-- Modelled from the spec: one pending occupancy operation of a feature
(section 4.4); the bodies of `QueBlock`, `QueUnBlock` and `ExecuteDelayOps`
are in `Feature.cpp`, which is not among the sources. -/
inductive DelayOp where
  | BLOCK
  | UNBLOCK
  deriving DecidableEq, Repr

/-- Modelled from the spec: the shared occupancy structure, seen through the
footprint ids registered in it (section 6, register / unregister by footprint
id). -/
structure OccupancyGrid where
  blocked : Int → Bool

/-- Modelled from the spec: marking a footprint in the shared structure. -/
def OccupancyGrid.Block (g : OccupancyGrid) (footprint : Int) : OccupancyGrid :=
  { blocked := fun i => if i = footprint then true else g.blocked i }

/-- Modelled from the spec: clearing a footprint in the shared structure. -/
def OccupancyGrid.UnBlock (g : OccupancyGrid) (footprint : Int) : OccupancyGrid :=
  { blocked := fun i => if i = footprint then false else g.blocked i }

/-- Modelled from the spec: the effect of one pending operation on the
shared grid. -/
def OccupancyGrid.apply (g : OccupancyGrid) (footprint : Int) : DelayOp → OccupancyGrid
  | DelayOp.BLOCK => g.Block footprint
  | DelayOp.UNBLOCK => g.UnBlock footprint

/-- Modelled from the spec: the shared structure together with one feature's
footprint id and its private pending-operations list (sections 3 and
4.4). -/
structure OccupancyState where
  grid : OccupancyGrid
  footprint : Int
  delayOps : List DelayOp

/-- Modelled from the spec: `CFeature::QueBlock(bool delay)`, section 4.4:
when deferred, the operation is appended to the pending list; otherwise it
is applied to the shared structure at once. -/
def CFeature.QueBlock (w : OccupancyState) (delay : Bool) : OccupancyState :=
  if delay then { w with delayOps := w.delayOps ++ [DelayOp.BLOCK] }
  else { w with grid := w.grid.Block w.footprint }

/-- Modelled from the spec: `CFeature::QueUnBlock(bool delay)`, section 4.4. -/
def CFeature.QueUnBlock (w : OccupancyState) (delay : Bool) : OccupancyState :=
  if delay then { w with delayOps := w.delayOps ++ [DelayOp.UNBLOCK] }
  else { w with grid := w.grid.UnBlock w.footprint }

/-- Modelled from the spec: `CFeature::ExecuteDelayOps()`, section 4.4: the
pending operations are applied in issue order and the list is cleared. -/
def CFeature.ExecuteDelayOps (w : OccupancyState) : OccupancyState :=
  { w with
    grid := w.delayOps.foldl (fun g op => g.apply w.footprint op) w.grid
    delayOps := [] }

/-- One call of `QueBlock(delay)` or `QueUnBlock(delay)`, named by the
operation it issues. -/
def issue (delay : Bool) (w : OccupancyState) : DelayOp → OccupancyState
  | DelayOp.BLOCK => CFeature.QueBlock w delay
  | DelayOp.UNBLOCK => CFeature.QueUnBlock w delay

/-- A sequence of `QueBlock(delay)` / `QueUnBlock(delay)` calls, in issue
order. -/
def issueAll (delay : Bool) (w : OccupancyState) (calls : List DelayOp) : OccupancyState :=
  calls.foldl (issue delay) w

/-! ## Resource economy: `AddBuildPower` -/

/-- A same-alliance, non-neutral, not always-visible feature that is out of
line-of-sight, under GAIA_ALLIED. -/
def sampleState : SimState Unit :=
  { featureVisibility := 2
    loshandler := { InLos := fun _ _ => false }
    self := { id := 7, pos := (), allyteam := 4, alwaysVisible := false } }

/-- A line-of-sight handler that sees nothing. -/
def blindLos : CLosHandler Unit := { InLos := fun _ _ => false }

/-- An always-visible feature owned by alliance 2. -/
def beacon : CFeature Unit := { id := 1, pos := (), allyteam := 2, alwaysVisible := true }

/-- A neutral (Gaia) feature that is not always-visible. -/
def gaiaRock : CFeature Unit := { id := 3, pos := (), allyteam := -1, alwaysVisible := false }

/-- A feature with id 0. -/
def zeroIdFeature : CFeature Unit := { id := 0, pos := (), allyteam := 0, alwaysVisible := false }

/-- A feature with the largest 32-bit id. -/
def maxIdFeature : CFeature Unit :=
  { id := 2147483647, pos := (), allyteam := 0, alwaysVisible := false }

/-- Collaborator answers with the given `modrules.lua` root table. -/
def envOf (root : LuaTable) : InitEnv :=
  { humanName := "Game", shortName := "G", version := "1", mutator := "", description := ""
    root := root
    PFS_TYPE_DEFAULT := 0
    PFS_TYPE_QTPFS := 1
    PFS_NUM_TYPES := 2
    PFS_NUM_TYPES_pos := by decide
    MT_LUA_SINGLE_BATCH := 2
    modNameHasBalancedAnnihilation := false }

/-- Root table of a `modrules.lua` setting `featureLOS.featureVisibility = 4`. -/
def rootVisibility4 : LuaTable :=
  [("featureLOS", LuaValue.table [("featureVisibility", LuaValue.number 4)])]

/-- Root table of a `modrules.lua` setting `sensors.los.losMipLevel = 7`. -/
def rootLosMip7 : LuaTable :=
  [("sensors", LuaValue.table [("los", LuaValue.table [("losMipLevel", LuaValue.number 7)])])]

/-- A feature with footprint id 5007 on a grid where nothing is blocked. -/
def emptyOccupancy : OccupancyState :=
  { grid := { blocked := fun _ => false }, footprint := 5007, delayOps := [] }

theorem IsInLosForAllyTeam_run {P : Type} (s : SimState P) (a : Int) :
    (CFeature.IsInLosForAllyTeam a).run s =
      (visibilityRule s.self.alwaysVisible s.featureVisibility s.self.allyteam a
        (s.loshandler.InLos s.self.pos a), s) := by
  unfold CFeature.IsInLosForAllyTeam visibilityRule
  simp only [StateT.run, bind, StateT.bind, get, getThe, MonadStateOf.get, StateT.get, pure,
    StateT.pure, FEATURELOS_NONE, FEATURELOS_GAIAONLY, FEATURELOS_GAIAALLIED, FEATURELOS_ALL]
  by_cases hv : s.self.alwaysVisible = true
  · simp only [hv, if_true]; rfl
  · by_cases h0 : s.featureVisibility = 0
    · simp [hv, h0]; rfl
    · by_cases h1 : s.featureVisibility = 1
      · simp [hv, h1]; rfl
      · by_cases h2 : s.featureVisibility = 2
        · simp [hv, h2]; rfl
        · by_cases h3 : s.featureVisibility = 3
          · simp [hv, h3]; rfl
          · simp [hv, h0, h1, h2, h3]; rfl

theorem isVisible_eq {P : Type} (s : SimState P) (a : Int) :
    isVisible s a =
      visibilityRule s.self.alwaysVisible s.featureVisibility s.self.allyteam a
        (s.loshandler.InLos s.self.pos a) := by
  unfold isVisible
  rw [IsInLosForAllyTeam_run]

/-! ## Claims on `CFeature::IsInLosForAllyTeam` -/

/-- C1: for a feature that is not always-visible, `IsInLosForAllyTeam` returns
the line-of-sight answer under NONE, `allyteam = -1 OR los` under GAIA_ONLY,
`allyteam = -1 OR allyteam = observer OR los` under GAIA_ALLIED and `true`
under ALL; a same-alliance non-neutral feature out of line-of-sight is hidden
under GAIA_ONLY and shown under GAIA_ALLIED, and an other-alliance non-neutral
feature out of line-of-sight is shown under ALL and hidden under the three
other modes. -/
theorem C1_visibility_table {P : Type} (s : SimState P) (a : Int)
    (hav : s.self.alwaysVisible = false) :
    (s.featureVisibility = FEATURELOS_NONE →
      isVisible s a = s.loshandler.InLos s.self.pos a) ∧
    (s.featureVisibility = FEATURELOS_GAIAONLY →
      isVisible s a = (s.self.allyteam == -1 || s.loshandler.InLos s.self.pos a)) ∧
    (s.featureVisibility = FEATURELOS_GAIAALLIED →
      isVisible s a = (s.self.allyteam == -1 || s.self.allyteam == a
        || s.loshandler.InLos s.self.pos a)) ∧
    (s.featureVisibility = FEATURELOS_ALL → isVisible s a = true) ∧
    (s.self.allyteam ≠ -1 → s.self.allyteam = a → s.loshandler.InLos s.self.pos a = false →
      (s.featureVisibility = FEATURELOS_GAIAONLY → isVisible s a = false) ∧
      (s.featureVisibility = FEATURELOS_GAIAALLIED → isVisible s a = true)) ∧
    (s.self.allyteam ≠ -1 → s.self.allyteam ≠ a → s.loshandler.InLos s.self.pos a = false →
      (s.featureVisibility = FEATURELOS_NONE → isVisible s a = false) ∧
      (s.featureVisibility = FEATURELOS_GAIAONLY → isVisible s a = false) ∧
      (s.featureVisibility = FEATURELOS_GAIAALLIED → isVisible s a = false) ∧
      (s.featureVisibility = FEATURELOS_ALL → isVisible s a = true)) := by
  simp only [FEATURELOS_NONE, FEATURELOS_GAIAONLY, FEATURELOS_GAIAALLIED, FEATURELOS_ALL]
  rw [isVisible_eq, hav]
  refine ⟨?_, ?_, ?_, ?_, ?_, ?_⟩
  · intro h; simp [visibilityRule, h]
  · intro h; simp [visibilityRule, h]
  · intro h; simp [visibilityRule, h]
  · intro h; simp [visibilityRule, h]
  · intro hn hs hl
    refine ⟨?_, ?_⟩
    · intro h; simp [visibilityRule, h, hn, hl]
    · intro h; simp [visibilityRule, h, hs, hl]
  · intro hn hs hl
    refine ⟨?_, ?_, ?_, ?_⟩
    · intro h; simp [visibilityRule, h, hl]
    · intro h; simp [visibilityRule, h, hn, hl]
    · intro h; simp [visibilityRule, h, hn, hs, hl]
    · intro h; simp [visibilityRule, h]

/-- Instance of C1 at `sampleState` observed by alliance 4. -/
theorem C1_visibility_table_witness :
    sampleState.self.alwaysVisible = false ∧ isVisible sampleState 4 = true :=
  ⟨rfl, ((C1_visibility_table sampleState 4 rfl).2.2.2.2.1 (by decide) rfl rfl).2 rfl⟩

/-- C2: an always-visible feature is reported visible for every observer
alliance, every integer value of `featureVisibility` and every line-of-sight
handler, so the answer does not depend on the line-of-sight query. -/
theorem C2_always_visible {P : Type} (featureVisibility : Int) (los : CLosHandler P)
    (f : CFeature P) (a : Int) (hav : f.alwaysVisible = true) :
    isVisible { featureVisibility := featureVisibility, loshandler := los, self := f } a
      = true := by
  rw [isVisible_eq]
  simp [visibilityRule, hav]

/-- Instance of C2: mode 17 is outside `0..3`, the feature is out of sight. -/
theorem C2_always_visible_witness :
    beacon.alwaysVisible = true ∧
    isVisible { featureVisibility := 17, loshandler := blindLos, self := beacon } 5 = true :=
  ⟨rfl, C2_always_visible 17 blindLos beacon 5 rfl⟩

/-- C6: one evaluation of `IsInLosForAllyTeam` returns a fixed function of
(alwaysVisible, featureVisibility, feature allyteam, observer allyteam, the
line-of-sight answer) and leaves the whole reachable state (configuration,
line-of-sight handler, feature) as it was; hence two evaluations agreeing on
the five values return the same boolean. -/
theorem C6_deterministic_pure {P : Type} :
    (∃ g : Bool → Int → Int → Int → Bool → Bool, ∀ (s : SimState P) (a : Int),
      (CFeature.IsInLosForAllyTeam a).run s =
        (g s.self.alwaysVisible s.featureVisibility s.self.allyteam a
          (s.loshandler.InLos s.self.pos a), s)) ∧
    (∀ (s t : SimState P) (a b : Int),
      s.self.alwaysVisible = t.self.alwaysVisible →
      s.featureVisibility = t.featureVisibility →
      s.self.allyteam = t.self.allyteam →
      a = b →
      s.loshandler.InLos s.self.pos a = t.loshandler.InLos t.self.pos b →
      ((CFeature.IsInLosForAllyTeam a).run s).1 = ((CFeature.IsInLosForAllyTeam b).run t).1) ∧
    (∀ (s : SimState P) (a : Int), ((CFeature.IsInLosForAllyTeam a).run s).2 = s) := by
  refine ⟨⟨visibilityRule, fun s a => IsInLosForAllyTeam_run s a⟩, ?_, ?_⟩
  · intro s t a b h1 h2 h3 h4 h5
    subst h4
    rw [IsInLosForAllyTeam_run, IsInLosForAllyTeam_run, h1, h2, h3, h5]
  · intro s a
    rw [IsInLosForAllyTeam_run]

/-- Instance of C6: two different states that agree on the five values. -/
theorem C6_deterministic_pure_witness :
    ((CFeature.IsInLosForAllyTeam 4).run sampleState).1 =
      ((CFeature.IsInLosForAllyTeam 4).run
        { sampleState with self := { sampleState.self with id := 99 } }).1 :=
  (C6_deterministic_pure (P := Unit)).2.1 sampleState
    { sampleState with self := { sampleState.self with id := 99 } } 4 4 rfl rfl rfl rfl rfl

/-- C9: with feature, observer and line-of-sight answer fixed, visibility under
a mode `m` of `0..3` implies visibility under every mode `n` with
`m ≤ n ≤ 3`; and every `featureVisibility` outside `0..3` gives the same answer
as `FEATURELOS_NONE`. -/
theorem C9_mode_monotone {P : Type} (los : CLosHandler P) (f : CFeature P) (a : Int) :
    (∀ m n : Int, 0 ≤ m → m ≤ n → n ≤ 3 →
      isVisible { featureVisibility := m, loshandler := los, self := f } a = true →
      isVisible { featureVisibility := n, loshandler := los, self := f } a = true) ∧
    (∀ v : Int, (v < 0 ∨ v > 3) →
      isVisible { featureVisibility := v, loshandler := los, self := f } a =
        isVisible { featureVisibility := FEATURELOS_NONE, loshandler := los, self := f } a) := by
  refine ⟨?_, ?_⟩
  · intro m n hm hmn hn
    rw [isVisible_eq, isVisible_eq]
    simp only [visibilityRule]
    have hm' : m = 0 ∨ m = 1 ∨ m = 2 ∨ m = 3 := by omega
    have hn' : n = 0 ∨ n = 1 ∨ n = 2 ∨ n = 3 := by omega
    rcases hm' with rfl | rfl | rfl | rfl <;> rcases hn' with rfl | rfl | rfl | rfl <;>
      first
        | omega
        | (cases f.alwaysVisible <;> cases los.InLos f.pos a <;> simp
           try (intro h; simp [h]))
  · intro v hv
    rw [isVisible_eq, isVisible_eq]
    have h1 : v ≠ 1 := by omega
    have h2 : v ≠ 2 := by omega
    have h3 : v ≠ 3 := by omega
    simp [visibilityRule, FEATURELOS_NONE, h1, h2, h3]

/-- Instance of C9: a neutral feature out of sight, promoted from GAIA_ONLY to
GAIA_ALLIED. -/
theorem C9_mode_monotone_witness :
    isVisible { featureVisibility := 1, loshandler := blindLos, self := gaiaRock } 5 = true ∧
    isVisible { featureVisibility := 2, loshandler := blindLos, self := gaiaRock } 5 = true :=
  ⟨by decide, (C9_mode_monotone blindLos gaiaRock 5).1 1 2
    (by decide) (by decide) (by decide) (by decide)⟩

/-- C10, as stated, fails where the 32-bit arithmetic wraps: with
`MaxUnits = 429496730` the feature of id 0 gets the blocking id 4, which is a
unit id and is below `10 * MaxUnits`; with `MaxUnits = 500` the feature of id
`2147483647` gets a negative blocking id. -/
theorem C10_wraps_into_unit_ids :
    (1 : Int) ≤ 429496730 ∧
    (0 : Int) ≤ zeroIdFeature.id ∧
    zeroIdFeature.GetBlockingMapID 429496730 = 4 ∧
    zeroIdFeature.GetBlockingMapID 429496730 ≠ zeroIdFeature.id + 10 * 429496730 ∧
    ((0 : Int) ≤ 4 ∧ (4 : Int) < 429496730) ∧
    ¬ (10 * 429496730 ≤ zeroIdFeature.GetBlockingMapID 429496730) ∧
    (0 : Int) ≤ maxIdFeature.id ∧
    maxIdFeature.GetBlockingMapID 500 = -2147478649 ∧
    ¬ (10 * 500 ≤ maxIdFeature.GetBlockingMapID 500) := by
  refine ⟨by decide, by decide, by decide, by decide, ⟨by decide, by decide⟩, by decide,
    by decide, by decide, by decide⟩

/-- C10 (amended): whenever `id + 10 * MaxUnits` fits a 32-bit `int`,
`GetBlockingMapID` returns exactly that value; on 32-bit feature ids it is
injective for every `MaxUnits`; and for `MaxUnits ≥ 1`, a feature id `≥ 0` and
`id + 10 * MaxUnits ≤ 2^31 - 1` it is at least `10 * MaxUnits` and differs from
every unit id in `[0, MaxUnits)`. -/
theorem C10_blocking_map_id {P : Type} (maxUnits : Int) (hM : 1 ≤ maxUnits) :
    (∀ f : CFeature P, -2147483648 ≤ f.id + 10 * maxUnits →
      f.id + 10 * maxUnits ≤ 2147483647 →
      f.GetBlockingMapID maxUnits = f.id + 10 * maxUnits) ∧
    (∀ f g : CFeature P,
      (-2147483648 ≤ f.id ∧ f.id ≤ 2147483647) →
      (-2147483648 ≤ g.id ∧ g.id ≤ 2147483647) →
      f.GetBlockingMapID maxUnits = g.GetBlockingMapID maxUnits → f.id = g.id) ∧
    (∀ f : CFeature P, 0 ≤ f.id → f.id + 10 * maxUnits ≤ 2147483647 →
      10 * maxUnits ≤ f.GetBlockingMapID maxUnits ∧
      ∀ u : Int, 0 ≤ u → u < maxUnits → f.GetBlockingMapID maxUnits ≠ u) := by
  refine ⟨?_, ?_, ?_⟩
  · intro f hlo hhi
    simp only [CFeature.GetBlockingMapID, wrapInt32]
    omega
  · intro f g hf hg h
    simp only [CFeature.GetBlockingMapID, wrapInt32] at h
    omega
  · intro f hf hhi
    have he : f.GetBlockingMapID maxUnits = f.id + 10 * maxUnits := by
      simp only [CFeature.GetBlockingMapID, wrapInt32]
      omega
    rw [he]
    refine ⟨by omega, ?_⟩
    intro u hu0 hu
    omega

/-- Instance of C10 with `MaxUnits = 500` and feature id 7. -/
theorem C10_blocking_map_id_witness :
    (1 : Int) ≤ 500 ∧ sampleState.self.GetBlockingMapID 500 = 5007 :=
  ⟨by decide, (C10_blocking_map_id (P := Unit) 500 (by decide)).1 sampleState.self
    (by decide) (by decide)⟩

/-! ## `CModInfo::Init`: auxiliary facts and claims -/

theorem Init_cases (env : InitEnv) (modArchive : String) :
    (¬ (0 ≤ configuredFeatureVisibility env.root ∧ configuredFeatureVisibility env.root ≤ 3) ∧
      CModInfo.Init env modArchive = Except.error (Exception.content_error featureVisibilityError)) ∨
    ((0 ≤ configuredFeatureVisibility env.root ∧ configuredFeatureVisibility env.root ≤ 3) ∧
      ¬ (0 ≤ configuredLosMipLevel env.root ∧ configuredLosMipLevel env.root ≤ 6) ∧
      CModInfo.Init env modArchive = Except.error (Exception.content_error losMipLevelError)) ∨
    ((0 ≤ configuredFeatureVisibility env.root ∧ configuredFeatureVisibility env.root ≤ 3) ∧
      (0 ≤ configuredLosMipLevel env.root ∧ configuredLosMipLevel env.root ≤ 6) ∧
      ¬ (0 ≤ configuredAirMipLevel env.root ∧ configuredAirMipLevel env.root ≤ 30) ∧
      CModInfo.Init env modArchive = Except.error (Exception.content_error airMipLevelError)) ∨
    ((0 ≤ configuredFeatureVisibility env.root ∧ configuredFeatureVisibility env.root ≤ 3) ∧
      (0 ≤ configuredLosMipLevel env.root ∧ configuredLosMipLevel env.root ≤ 6) ∧
      (0 ≤ configuredAirMipLevel env.root ∧ configuredAirMipLevel env.root ≤ 30) ∧
      ∃ m, CModInfo.Init env modArchive = Except.ok m ∧
        m.featureVisibility = configuredFeatureVisibility env.root ∧
        m.losMipLevel = configuredLosMipLevel env.root ∧
        m.airMipLevel = configuredAirMipLevel env.root) := by
  by_cases hf : 0 ≤ configuredFeatureVisibility env.root ∧ configuredFeatureVisibility env.root ≤ 3
  · by_cases hl : 0 ≤ configuredLosMipLevel env.root ∧ configuredLosMipLevel env.root ≤ 6
    · by_cases ha : 0 ≤ configuredAirMipLevel env.root ∧ configuredAirMipLevel env.root ≤ 30
      · right; right; right
        refine ⟨hf, hl, ha, ?_⟩
        have hf1 : ¬ (configuredFeatureVisibility env.root < 0 ∨
            configuredFeatureVisibility env.root > 3) := by omega
        have hl1 : ¬ (configuredLosMipLevel env.root < 0 ∨
            configuredLosMipLevel env.root > 6) := by omega
        have ha1 : ¬ (configuredAirMipLevel env.root < 0 ∨
            configuredAirMipLevel env.root > 30) := by omega
        simp only [configuredFeatureVisibility, configuredLosMipLevel,
          configuredAirMipLevel, FEATURELOS_ALL] at hf1 hl1 ha1 ⊢
        simp only [CModInfo.Init, FEATURELOS_NONE, FEATURELOS_ALL, hf1, hl1, ha1, if_false,
          pure, Except.pure, bind, Except.bind]
        exact ⟨_, rfl, rfl, rfl, rfl⟩
      · right; right; left
        refine ⟨hf, hl, ha, ?_⟩
        have hf1 : ¬ (configuredFeatureVisibility env.root < 0 ∨
            configuredFeatureVisibility env.root > 3) := by omega
        have hl1 : ¬ (configuredLosMipLevel env.root < 0 ∨
            configuredLosMipLevel env.root > 6) := by omega
        have ha1 : (configuredAirMipLevel env.root < 0 ∨
            configuredAirMipLevel env.root > 30) := by omega
        simp only [configuredFeatureVisibility, configuredLosMipLevel,
          configuredAirMipLevel, FEATURELOS_ALL] at hf1 hl1 ha1
        simp only [CModInfo.Init, FEATURELOS_NONE, FEATURELOS_ALL, hf1, hl1, ha1, if_false,
          if_true, pure, Except.pure, bind, Except.bind, throw, throwThe, MonadExceptOf.throw]
    · right; left
      refine ⟨hf, hl, ?_⟩
      have hf1 : ¬ (configuredFeatureVisibility env.root < 0 ∨
          configuredFeatureVisibility env.root > 3) := by omega
      have hl1 : (configuredLosMipLevel env.root < 0 ∨
          configuredLosMipLevel env.root > 6) := by omega
      simp only [configuredFeatureVisibility, configuredLosMipLevel,
        FEATURELOS_ALL] at hf1 hl1
      simp only [CModInfo.Init, FEATURELOS_NONE, FEATURELOS_ALL, hf1, hl1, if_false,
        if_true, pure, Except.pure, bind, Except.bind, throw, throwThe, MonadExceptOf.throw]
  · left
    refine ⟨hf, ?_⟩
    have hf1 : (configuredFeatureVisibility env.root < 0 ∨
        configuredFeatureVisibility env.root > 3) := by omega
    simp only [configuredFeatureVisibility, FEATURELOS_ALL] at hf1
    simp only [CModInfo.Init, FEATURELOS_NONE, FEATURELOS_ALL, hf1,
      if_true, pure, Except.pure, bind, Except.bind, throw, throwThe, MonadExceptOf.throw]

/-- C3: when the configured `featureVisibility` is below 0 or above 3,
`Init` throws the `content_error` whose text names `featureVisibility`, for
every value of the other options; when it is within `0..3`, `Init` does not
throw that error. -/
theorem C3_featureVisibility_rejected (env : InitEnv) (modArchive : String) :
    ((configuredFeatureVisibility env.root < 0 ∨ configuredFeatureVisibility env.root > 3) →
      CModInfo.Init env modArchive =
        Except.error (Exception.content_error featureVisibilityError)) ∧
    (∃ pre post : String, featureVisibilityError = pre ++ "featureVisibility" ++ post) ∧
    ((0 ≤ configuredFeatureVisibility env.root ∧ configuredFeatureVisibility env.root ≤ 3) →
      CModInfo.Init env modArchive ≠
        Except.error (Exception.content_error featureVisibilityError)) := by
  have hne1 : losMipLevelError ≠ featureVisibilityError := by decide
  have hne2 : airMipLevelError ≠ featureVisibilityError := by decide
  refine ⟨?_, ⟨"invalid modinfo: ", ", valid range is 0..3", by decide⟩, ?_⟩
  · intro hv
    rcases Init_cases env modArchive with h | h | h | h
    · exact h.2
    · omega
    · omega
    · omega
  · intro hv
    rcases Init_cases env modArchive with h | h | h | h
    · exact absurd hv h.1
    · rw [h.2.2]
      intro hc
      injection hc with hc
      injection hc with hc
      exact hne1 hc
    · rw [h.2.2.2]
      intro hc
      injection hc with hc
      injection hc with hc
      exact hne2 hc
    · obtain ⟨m, hm, -⟩ := h.2.2.2
      rw [hm]
      intro hc
      cases hc

/-- Instance of C3: `featureVisibility = 4`. -/
theorem C3_featureVisibility_rejected_witness :
    configuredFeatureVisibility (envOf rootVisibility4).root = 4 ∧
    CModInfo.Init (envOf rootVisibility4) "game.sdz" =
      Except.error (Exception.content_error featureVisibilityError) :=
  ⟨by decide, (C3_featureVisibility_rejected (envOf rootVisibility4) "game.sdz").1
    (Or.inr (by decide))⟩

/-- C4: when the configured `featureVisibility` is within `0..3` and the
configured `losMipLevel` is below 0 or above 6, `Init` ends with a
`content_error` whose text differs from the one of the `featureVisibility`
error. -/
theorem C4_losMipLevel_rejected (env : InitEnv) (modArchive : String)
    (hv : 0 ≤ configuredFeatureVisibility env.root ∧ configuredFeatureVisibility env.root ≤ 3)
    (hl : configuredLosMipLevel env.root < 0 ∨ configuredLosMipLevel env.root > 6) :
    CModInfo.Init env modArchive = Except.error (Exception.content_error losMipLevelError) ∧
    losMipLevelError ≠ featureVisibilityError := by
  refine ⟨?_, by decide⟩
  rcases Init_cases env modArchive with h | h | h | h
  · exact absurd hv h.1
  · exact h.2.2
  · omega
  · omega

/-- Instance of C4: `losMipLevel = 7` with the default `featureVisibility`. -/
theorem C4_losMipLevel_rejected_witness :
    configuredLosMipLevel (envOf rootLosMip7).root = 7 ∧
    CModInfo.Init (envOf rootLosMip7) "game.sdz" =
      Except.error (Exception.content_error losMipLevelError) :=
  ⟨by decide, (C4_losMipLevel_rejected (envOf rootLosMip7) "game.sdz"
    ⟨by decide, by decide⟩ (Or.inr (by decide))).1⟩

/-- C5: a normal return of `Init` stores a `featureVisibility` among the four
modes `0..3`, `0 ≤ losMipLevel ≤ 6` and `0 ≤ airMipLevel ≤ 30`; `Init` raises
exactly when one of the three configured values is out of its range; and a
configuration that omits the three keys is accepted with the defaults ALL, 1
and 2. -/
theorem C5_validated_ranges (env : InitEnv) (modArchive : String) :
    (∀ m : CModInfo, CModInfo.Init env modArchive = Except.ok m →
      (m.featureVisibility = FEATURELOS_NONE ∨ m.featureVisibility = FEATURELOS_GAIAONLY ∨
        m.featureVisibility = FEATURELOS_GAIAALLIED ∨ m.featureVisibility = FEATURELOS_ALL) ∧
      (0 ≤ m.losMipLevel ∧ m.losMipLevel ≤ 6) ∧
      (0 ≤ m.airMipLevel ∧ m.airMipLevel ≤ 30)) ∧
    ((∃ e : Exception, CModInfo.Init env modArchive = Except.error e) ↔
      ¬ ((0 ≤ configuredFeatureVisibility env.root ∧ configuredFeatureVisibility env.root ≤ 3) ∧
         (0 ≤ configuredLosMipLevel env.root ∧ configuredLosMipLevel env.root ≤ 6) ∧
         (0 ≤ configuredAirMipLevel env.root ∧ configuredAirMipLevel env.root ≤ 30))) ∧
    ((env.root.SubTable "featureLOS").lookup "featureVisibility" = none →
      ((env.root.SubTable "sensors").SubTable "los").lookup "losMipLevel" = none →
      ((env.root.SubTable "sensors").SubTable "los").lookup "airMipLevel" = none →
      ∃ m : CModInfo, CModInfo.Init env modArchive = Except.ok m ∧
        m.featureVisibility = FEATURELOS_ALL ∧ m.losMipLevel = 1 ∧ m.airMipLevel = 2) := by
  refine ⟨?_, ?_, ?_⟩
  · intro m hm
    simp only [FEATURELOS_NONE, FEATURELOS_GAIAONLY, FEATURELOS_GAIAALLIED, FEATURELOS_ALL]
    rcases Init_cases env modArchive with h | h | h | h
    · rw [h.2] at hm; cases hm
    · rw [h.2.2] at hm; cases hm
    · rw [h.2.2.2] at hm; cases hm
    · obtain ⟨hf, hl, ha, m', hm', e1, e2, e3⟩ := h
      rw [hm'] at hm
      injection hm with hm
      subst hm
      rw [e1, e2, e3]
      refine ⟨by omega, hl, ha⟩
  · rcases Init_cases env modArchive with h | h | h | h
    · exact ⟨fun _ => fun hc => h.1 hc.1, fun _ => ⟨_, h.2⟩⟩
    · exact ⟨fun _ => fun hc => h.2.1 hc.2.1, fun _ => ⟨_, h.2.2⟩⟩
    · exact ⟨fun _ => fun hc => h.2.2.1 hc.2.2, fun _ => ⟨_, h.2.2.2⟩⟩
    · obtain ⟨hf, hl, ha, m', hm', -⟩ := h
      refine ⟨?_, fun hc => absurd ⟨hf, hl, ha⟩ hc⟩
      rintro ⟨e, he⟩
      rw [hm'] at he
      cases he
  · intro k1 k2 k3
    have e1 : configuredFeatureVisibility env.root = 3 := by
      simp [configuredFeatureVisibility, LuaTable.GetInt, k1, FEATURELOS_ALL]
    have e2 : configuredLosMipLevel env.root = 1 := by
      simp [configuredLosMipLevel, LuaTable.GetInt, k2]
    have e3 : configuredAirMipLevel env.root = 2 := by
      simp [configuredAirMipLevel, LuaTable.GetInt, k3]
    rcases Init_cases env modArchive with h | h | h | h
    · omega
    · omega
    · omega
    · obtain ⟨-, -, -, m', hm', f1, f2, f3⟩ := h
      exact ⟨m', hm', by rw [f1, e1]; rfl, by rw [f2, e2], by rw [f3, e3]⟩

/-- Instance of C5: an empty `modrules.lua` is accepted with the defaults. -/
theorem C5_validated_ranges_witness :
    ∃ m : CModInfo, CModInfo.Init (envOf []) "game.sdz" = Except.ok m ∧
      m.featureVisibility = FEATURELOS_ALL ∧ m.losMipLevel = 1 ∧ m.airMipLevel = 2 :=
  (C5_validated_ranges (envOf []) "game.sdz").2.2 rfl rfl rfl

/-! ## Deferred occupancy: auxiliary facts and claim -/

theorem issueAll_deferred (w : OccupancyState) (calls : List DelayOp) :
    issueAll true w calls =
      { w with delayOps := w.delayOps ++ calls } := by
  induction calls generalizing w with
  | nil => simp [issueAll]
  | cons c cs ih =>
    have hstep : issue true w c = { w with delayOps := w.delayOps ++ [c] } := by
      cases c <;> simp [issue, CFeature.QueBlock, CFeature.QueUnBlock]
    have : issueAll true w (c :: cs) = issueAll true (issue true w c) cs := by
      simp [issueAll]
    rw [this, ih, hstep]
    simp

/-- C8: deferred `QueBlock` / `QueUnBlock` calls leave the shared grid as it
was and append to the pending list in issue order; `ExecuteDelayOps` then
yields the grid obtained by applying the pending operations once each in that
order and empties the list (block, unblock, block ends blocked); with
`delay = false` a call changes the grid at once and the pending list is left
as it was. -/
theorem C8_deferred_occupancy (w : OccupancyState) (calls : List DelayOp) :
    (issueAll true w calls).grid = w.grid ∧
    (issueAll true w calls).delayOps = w.delayOps ++ calls ∧
    (CFeature.ExecuteDelayOps (issueAll true w calls)).grid =
      (w.delayOps ++ calls).foldl (fun g op => g.apply w.footprint op) w.grid ∧
    (CFeature.ExecuteDelayOps (issueAll true w calls)).delayOps = [] ∧
    (w.delayOps = [] →
      (CFeature.ExecuteDelayOps (issueAll true w calls)).grid =
        calls.foldl (fun g op => g.apply w.footprint op) w.grid) ∧
    ((CFeature.ExecuteDelayOps (CFeature.QueBlock (CFeature.QueUnBlock
        (CFeature.QueBlock { w with delayOps := [] } true) true) true)).grid.blocked
          w.footprint = true) ∧
    ((CFeature.QueBlock w false).grid = w.grid.Block w.footprint ∧
      (CFeature.QueBlock w false).delayOps = w.delayOps) ∧
    ((CFeature.QueUnBlock w false).grid = w.grid.UnBlock w.footprint ∧
      (CFeature.QueUnBlock w false).delayOps = w.delayOps) := by
  rw [issueAll_deferred]
  refine ⟨rfl, rfl, rfl, rfl, ?_, ?_, ⟨rfl, rfl⟩, ⟨rfl, rfl⟩⟩
  · intro h
    simp [CFeature.ExecuteDelayOps, h]
  · simp [CFeature.ExecuteDelayOps, CFeature.QueBlock, CFeature.QueUnBlock,
      OccupancyGrid.apply, OccupancyGrid.Block, OccupancyGrid.UnBlock]

/-- Instance of C8: block, unblock, block issued deferred on an empty grid. -/
theorem C8_deferred_occupancy_witness :
    (issueAll true emptyOccupancy
      [DelayOp.BLOCK, DelayOp.UNBLOCK, DelayOp.BLOCK]).grid.blocked 5007 = false ∧
    (CFeature.ExecuteDelayOps (issueAll true emptyOccupancy
      [DelayOp.BLOCK, DelayOp.UNBLOCK, DelayOp.BLOCK])).grid.blocked 5007 = true :=
  ⟨by decide, by
    rw [(C8_deferred_occupancy emptyOccupancy
      [DelayOp.BLOCK, DelayOp.UNBLOCK, DelayOp.BLOCK]).2.2.2.2.1 rfl]
    decide⟩

/-! ## Resource economy: auxiliary facts and claim -/

end Spring
